import Mathlib

/-!
Verification development for the sehwag multi-leg options breakout strategy.

Shallow embedding of the core decision logic of `src/core/strategy.py`,
`src/core/position_manager.py`, `src/core/order_manager.py` and
`src/core/market_data.py`.  Prices and percentages are modelled as exact
rationals (`ℚ`), Python `None`-able values as `Option`, Python dicts holding
configuration as association lists, and broker I/O as explicit response
values fed to the embedded functions.  Side effects (orders placed, database
records written, sleeps performed) are made explicit as returned data.
-/

set_option autoImplicit false

namespace Sehwag

/-! ## Basic helpers shared by the embeddings -/

/-- Lower-case a single ASCII character (Python `str.lower` restricted to the
ASCII letters actually appearing in the broker messages the code matches). -/
def lowCh (c : Char) : Char :=
  if c.toNat ≥ 65 ∧ c.toNat ≤ 90 then Char.ofNat (c.toNat + 32) else c

/-- Python `str.lower` on a message, as a list of characters. -/
def lowerStr (s : List Char) : List Char := s.map lowCh

/-- Does `needle` occur at the head of `hay`? -/
def subAtHead : List Char → List Char → Bool
  | [], _ => true
  | _ :: _, [] => false
  | a :: as, b :: bs => a == b && subAtHead as bs

/-- Python substring containment `needle in hay`. -/
def containsSub (needle : List Char) : List Char → Bool
  | [] => needle.isEmpty
  | b :: bs => subAtHead needle (b :: bs) || containsSub needle bs

/-- Python `int(x)` applied to a rational: truncation toward zero.  Both
branches divide a nonnegative numerator by a positive denominator, where all
Lean integer-division conventions agree. -/
def pyInt (x : ℚ) : ℤ :=
  if 0 ≤ x then x.num / (x.den : ℤ) else -((-x).num / (((-x).den : ℤ)))

/-- Python truthiness of an optional float: `None` and `0.0` are falsy. -/
def truthyQ : Option ℚ → Bool
  | some q => q != 0
  | none => false

/-! ## `LegState.calculate_pnl` (src/core/strategy.py lines 97-118)

A Python value that `float(...)` either converts or rejects is modelled by
`PyNum`: `num q` is a numeric value (or numeric string), `fail` is any value
on which the conversion raises. -/

inductive PyNum where
  | num (q : ℚ)
  | fail
deriving DecidableEq

/-- Embedding of `LegState.calculate_pnl`: entry price may be absent (`None`) or
unconvertible, the current price may be unconvertible, quantity may be
absent.  Returns `(pnl, pnl_pct)`. -/
def calculate_pnl (entry_price : Option PyNum) (quantity : Option ℤ)
    (current_price : PyNum) : ℚ × ℚ :=
  match entry_price with
  | none => (0, 0)
  | some e =>
    match e, current_price with
    | .num entry, .num exitp =>
      let qty : ℤ := match quantity with | some q => q | none => 0
      let price_change := exitp - entry
      let pnl := price_change * (qty : ℚ)
      let pnl_pct := if entry ≠ 0 then price_change / entry * 100 else 0
      (pnl, pnl_pct)
    | _, _ => (0, 0)

/-! ## Entry stop and stop-breach decision
(src/core/strategy.py lines 993-995 and 1197-1273) -/

/-- Initial stop computed at entry:
`entry_price * (1 - initial_sl_pct / 100)` (strategy.py line 994). -/
def initial_sl_price (entry_price initial_sl_pct : ℚ) : ℚ :=
  entry_price * (1 - initial_sl_pct / 100)

/-- The decision taken by `_handle_price_update` for one price tick. -/
inductive PriceAction where
  | skip
  | slBreach
  | manage
deriving DecidableEq

/-- Decision skeleton of `_handle_price_update`: an inactive leg or a falsy
price — Python truthiness, so a 0.0 price as well as a missing one — is
ignored (line 1199: `if not leg_state.is_active or not current_price:
return`), as is an already-exiting leg (line 1203); a price at or below
the current stop is a stop breach (line 1230:
`current_price <= leg_state.current_sl`); otherwise control passes to the
unified position manager. -/
def handle_price_update_action (is_active exiting : Bool)
    (current_price current_sl : ℚ) : PriceAction :=
  if !is_active || current_price == 0 then .skip
  else if exiting then .skip
  else if current_price ≤ current_sl then .slBreach
  else .manage

/-! ## `is_market_open` and the WAITING-phase abort
(src/core/strategy.py lines 31-45 and 459-482) -/

structure ClockTime where
  hour : ℕ
  minute : ℕ
  second : ℕ
deriving DecidableEq

def ClockTime.toSec (t : ClockTime) : ℕ :=
  t.hour * 3600 + t.minute * 60 + t.second

/-- A local timestamp: Python `datetime.weekday()` (Monday = 0 … Sunday = 6)
plus the wall-clock time. -/
structure LocalDateTime where
  weekday : ℕ
  time : ClockTime
deriving DecidableEq

/-- The function `is_market_open` as written in the source: line 33 is an unconditional
`return True`, so the market-hours logic below it (lines 34-45) never runs. -/
def is_market_open (_now : LocalDateTime) : Bool := true

/-- The unreachable market-hours logic of `is_market_open` (strategy.py lines
34-45): weekends are closed, otherwise open exactly within 09:15-15:30. -/
def is_market_open_dead_code (now : LocalDateTime) : Bool :=
  if 5 ≤ now.weekday then false
  else
    decide (ClockTime.toSec ⟨9, 15, 0⟩ ≤ now.time.toSec) &&
    decide (now.time.toSec ≤ ClockTime.toSec ⟨15, 30, 0⟩)

/-- Whether `_run_leg_thread` aborts right after the entry-time wait
(strategy.py lines 463-482): abort when the exit time (or the strategy end
time when no exit time is set) has already passed, or when
`is_market_open()` reports the market closed. -/
def waiting_phase_aborts (now : LocalDateTime) (leg_exit_time : Option ClockTime)
    (end_hour end_minute : ℕ) : Bool :=
  (match leg_exit_time with
   | none => decide (ClockTime.toSec ⟨end_hour, end_minute, 0⟩ ≤ now.time.toSec)
   | some et => decide (ClockTime.toSec et ≤ now.time.toSec)) ||
  !is_market_open now

/-! ## `OrderManager.verify_position_exists` and `OrderManager.place_order`
(src/core/order_manager.py lines 52-159) -/

/-- One entry of the broker position book, after the source's key-chain
normalisation: `symbol` is the first truthy of the `symbol` /
`tradingsymbol` / `Symbol` keys (or absent), `quantity` is the integer
parse of the first truthy of `quantity` / `netqty` / `Quantity`, with 0 on
a missing or unparsable value. -/
structure PosEntry where
  symbol : Option (List Char)
  quantity : ℤ
deriving DecidableEq

/-- The broker's reply to `positionbook()`. -/
inductive PosBookResp where
  | nonDict
  | errorStatus (msg : List Char)
  | success (data : List PosEntry)
  | exn
deriving DecidableEq

/-- Embedding of `OrderManager.verify_position_exists`: skipped (true) in test/sim modes;
fails open (true) on a non-dict reply, a non-success status or an
exception; an empty book or a book without a nonzero-quantity entry for the
symbol reports false. -/
def verify_position_exists (test_mode auto_place_orders : Bool)
    (symbol : List Char) (resp : PosBookResp) : Bool :=
  if test_mode || !auto_place_orders then true
  else
    match resp with
    | .nonDict => true
    | .errorStatus _ => true
    | .exn => true
    | .success data =>
      if data.isEmpty then false
      else data.any (fun p => p.symbol == some symbol && p.quantity != 0)

/-- The broker's reply to `placeorder`.  Order ids are modelled as naturals;
the synthetic TEST/SIM ids of the source are the sentinels 0 and 1. -/
inductive PlaceOrderResp where
  | ok (order_id : ℕ)
  | failure (msg : List Char)
  | exn
deriving DecidableEq

/-- Embedding of `OrderManager.place_order`: an exit-side order is skipped (returns
`none`) when the position check reports the position gone; orders in test
or sim mode return a synthetic id; otherwise the broker reply decides. -/
def place_order (test_mode auto_place_orders : Bool)
    (action exit_action symbol : List Char) (pos_resp : PosBookResp)
    (order_resp : PlaceOrderResp) : Option ℕ :=
  if action == exit_action &&
      !(verify_position_exists test_mode auto_place_orders symbol pos_resp) then
    none
  else if test_mode then some 0
  else if !auto_place_orders then some 1
  else
    match order_resp with
    | .ok oid => some oid
    | .failure _ => none
    | .exn => none

/-! ## `OrderManager.modify_sl_order` / `cancel_sl_order`
(src/core/order_manager.py lines 523-630) -/

/-- The broker's reply to `modifyorder` / `cancelorder`. -/
inductive BrokerResp where
  | ok
  | failure (msg : List Char)
  | exn
deriving DecidableEq

/-- How the operation was logged, distinguishing the source's three
terminal log statements. -/
inductive SlOpLog where
  | skippedGuard
  | successLog
  | alreadyFilledLog
  | errorLog
deriving DecidableEq

/-- The source's already-executed test on a failure message:
`'not a pending order' in error_msg.lower() or 'already executed' in
error_msg.lower()`. -/
def already_filled_msg (msg : List Char) : Bool :=
  containsSub ("not a pending order").toList (lowerStr msg) ||
  containsSub ("already executed").toList (lowerStr msg)

/-- Embedding of `OrderManager.modify_sl_order` (result, log classification): an
already-executed failure message is logged as informational but the call
still returns `False`. -/
def modify_sl_order (auto_place_orders place_sl_order_enabled : Bool)
    (order_id : Option ℕ) (test_mode : Bool) (resp : BrokerResp) :
    Bool × SlOpLog :=
  if !auto_place_orders || !place_sl_order_enabled || order_id.isNone then
    (false, .skippedGuard)
  else if test_mode then (true, .successLog)
  else
    match resp with
    | .ok => (true, .successLog)
    | .failure msg =>
      if already_filled_msg msg then (false, .alreadyFilledLog)
      else (false, .errorLog)
    | .exn => (false, .errorLog)

/-- Embedding of `OrderManager.cancel_sl_order` (result, log classification): an
already-executed failure message is treated as success. -/
def cancel_sl_order (auto_place_orders place_sl_order_enabled : Bool)
    (order_id : Option ℕ) (test_mode : Bool) (resp : BrokerResp) :
    Bool × SlOpLog :=
  if !auto_place_orders || !place_sl_order_enabled || order_id.isNone then
    (false, .skippedGuard)
  else if test_mode then (true, .successLog)
  else
    match resp with
    | .ok => (true, .successLog)
    | .failure msg =>
      if already_filled_msg msg then (true, .alreadyFilledLog)
      else (false, .errorLog)
    | .exn => (false, .errorLog)

/-! ## `MarketDataManager.get_quote` retry loop
(src/core/market_data.py lines 39-128) -/

/-- The source's transient-error classification (market_data.py line 78):
`'WinError 10035' in msg or 'HTTP 500' in msg or 'timeout' in msg.lower()`. -/
def transient_error_msg (msg : List Char) : Bool :=
  containsSub ("WinError 10035").toList msg ||
  containsSub ("HTTP 500").toList msg ||
  containsSub ("timeout").toList (lowerStr msg)

/-- What one `client.quotes(...)` call yields. -/
inductive QuoteAttempt where
  | errResp (msg : List Char)
  | okData (ltp : ℚ)
  | badFormat
  | nonDict
  | exn
deriving DecidableEq

/-- Result of the retry loop: the returned quote (or `none`), the backoff
sleeps performed in seconds, and the number of attempts consumed. -/
structure QuoteResult where
  result : Option ℚ
  sleeps : List ℚ
  attemptsUsed : ℕ
deriving DecidableEq

/-- The `for attempt in range(3)` body of `get_quote`, driven by the list of
per-attempt broker replies.  `attempt < 2` is the source's
`attempt < max_retries - 1`; transient errors and exceptions back off
`(attempt + 1) * 0.5` seconds, malformed responses 0.5 seconds. -/
def get_quote_from : ℕ → List QuoteAttempt → QuoteResult
  | _, [] => ⟨none, [], 0⟩
  | attempt, r :: rest =>
    match r with
    | .errResp msg =>
      if transient_error_msg msg then
        if attempt < 2 then
          let sub := get_quote_from (attempt + 1) rest
          ⟨sub.result, ((attempt : ℚ) + 1) * (1 / 2) :: sub.sleeps, sub.attemptsUsed + 1⟩
        else ⟨none, [], 1⟩
      else ⟨none, [], 1⟩
    | .okData ltp => ⟨some ltp, [], 1⟩
    | .badFormat =>
      if attempt < 2 then
        let sub := get_quote_from (attempt + 1) rest
        ⟨sub.result, (1 / 2 : ℚ) :: sub.sleeps, sub.attemptsUsed + 1⟩
      else ⟨none, [], 1⟩
    | .nonDict =>
      if attempt < 2 then
        let sub := get_quote_from (attempt + 1) rest
        ⟨sub.result, (1 / 2 : ℚ) :: sub.sleeps, sub.attemptsUsed + 1⟩
      else ⟨none, [], 1⟩
    | .exn =>
      if attempt < 2 then
        let sub := get_quote_from (attempt + 1) rest
        ⟨sub.result, ((attempt : ℚ) + 1) * (1 / 2) :: sub.sleeps, sub.attemptsUsed + 1⟩
      else ⟨none, [], 1⟩

/-- Embedding of `MarketDataManager.get_quote` with the WebSocket path disabled: the REST
retry loop starting at attempt 0. -/
def get_quote (resps : List QuoteAttempt) : QuoteResult :=
  get_quote_from 0 resps

/-! ## `SehwagStrategy._exit_leg_position` (src/core/strategy.py 1623-1732)
and `PositionManager.exit_position` (src/core/position_manager.py 96-132) -/

/-- The slice of `LegState` that the exit path reads and writes. -/
structure ExitLegState where
  is_active : Bool
  exiting : Bool
  sl_order_id : Option ℕ
  profit_target_order_id : Option ℕ
  exit_price : Option ℚ
  exit_reason : Option (List Char)
deriving DecidableEq

/-- Side effects of one exit call: exit orders placed (attempts), P&L
records written to persistence, stop-order cancel attempts. -/
structure ExitEffects where
  exit_order_attempts : ℕ
  pnl_records : ℕ
  cancel_attempts : ℕ
deriving DecidableEq

def ExitEffects.add (a b : ExitEffects) : ExitEffects :=
  ⟨a.exit_order_attempts + b.exit_order_attempts,
   a.pnl_records + b.pnl_records,
   a.cancel_attempts + b.cancel_attempts⟩

/-- Embedding of `_exit_leg_position`: under the state lock, a leg already exiting or
already inactive is left untouched with no side effects; otherwise the leg
is atomically marked exiting and inactive, the stop order is best-effort
cancelled, one exit order is placed, the exit fields are written and one
P&L record is produced (when persistence is enabled). -/
def exit_leg_position (persistence : Bool) (s : ExitLegState) (price : ℚ)
    (reason : List Char) : ExitLegState × ExitEffects :=
  if s.exiting || !s.is_active then (s, ⟨0, 0, 0⟩)
  else
    ({ s with
        exiting := true, is_active := false,
        sl_order_id := none, profit_target_order_id := none,
        exit_price := some price, exit_reason := some reason },
     ⟨1, if persistence then 1 else 0, if s.sl_order_id.isSome then 1 else 0⟩)

/-- A sequence of exit calls against the same leg, with effects summed. -/
def run_exit_calls (persistence : Bool) :
    ExitLegState → List (ℚ × List Char) → ExitLegState × ExitEffects
  | s, [] => (s, ⟨0, 0, 0⟩)
  | s, c :: cs =>
    let r1 := exit_leg_position persistence s c.1 c.2
    let r2 := run_exit_calls persistence r1.1 cs
    (r2.1, r1.2.add r2.2)

/-- The slice of `LegPosition` that `PositionManager.exit_position` touches;
`pnl_set` records that the final P&L pair was written. -/
structure PmLeg where
  is_active : Bool
  exit_price : Option ℚ
  pnl_set : Bool
deriving DecidableEq

/-- Embedding of `PositionManager.exit_position`: a no-op on an inactive leg; otherwise
one exit order is attempted and — whether or not an order id came back —
the leg is deactivated and its exit fields and final P&L are written. -/
def pm_exit_position (_order_placed : Bool) (leg : PmLeg) (price : ℚ) :
    PmLeg × ℕ :=
  if !leg.is_active then (leg, 0)
  else (⟨false, some price, true⟩, 1)

/-! ## `SehwagStrategy._wait_for_trade_confirmation`
(src/core/strategy.py lines 781-938) -/

/-- The mutable state of the confirmation loop. -/
structure WtState where
  reference_price : ℚ
  highest_since_reference : ℚ
  reset_count : ℕ
deriving DecidableEq

/-- The target price: `reference_price * (1 + threshold_pct / 100)`
(strategy.py lines 809 and 894). -/
def wt_target_price (threshold_pct reference_price : ℚ) : ℚ :=
  reference_price * (1 + threshold_pct / 100)

/-- Outcome of observing one price in the loop. -/
inductive WtStep where
  | confirmed (s : WtState)
  | pending (s : WtState)
deriving DecidableEq

/-- One iteration of the confirmation loop on an observed price: the running
peak is updated first; a price at or above the target confirms immediately;
otherwise, with the reset feature armed, a drop from the peak of at least
`reset_drop_pct` percent rebases reference, target and peak to the current
price and counts a reset. -/
def wt_observe (threshold_pct : ℚ) (reset_enabled : Bool)
    (reset_drop_pct : Option ℚ) (s : WtState) (p : ℚ) : WtStep :=
  let peak := if p > s.highest_since_reference then p else s.highest_since_reference
  if p ≥ wt_target_price threshold_pct s.reference_price then
    .confirmed { s with highest_since_reference := peak }
  else
    match reset_drop_pct with
    | some d =>
      if reset_enabled && (d != 0) && decide ((peak - p) / peak * 100 ≥ d) then
        .pending ⟨p, p, s.reset_count + 1⟩
      else .pending { s with highest_since_reference := peak }
    | none => .pending { s with highest_since_reference := peak }

/-- The confirmation loop over the observed prices; an exhausted list is the
timeout and returns `False`. -/
def wt_run (threshold_pct : ℚ) (reset_enabled : Bool) (reset_drop_pct : Option ℚ) :
    WtState → List ℚ → Bool × WtState
  | s, [] => (false, s)
  | s, p :: ps =>
    match wt_observe threshold_pct reset_enabled reset_drop_pct s p with
    | .confirmed s1 => (true, s1)
    | .pending s1 => wt_run threshold_pct reset_enabled reset_drop_pct s1 ps

/-- Initial loop state from the first quote (strategy.py lines 808-815). -/
def wt_start (initial_price : ℚ) : WtState := ⟨initial_price, initial_price, 0⟩

/-! ## Configuration resolution used by `_manage_position_unified`
(src/core/strategy.py lines 1333-1388) -/

/-- A value held in a leg configuration or the strategy defaults: a numeric
value (ints, floats and numeric strings are folded together, since both
`get_param` and `safe_float` treat them alike), an explicit Python `None`,
one of the null-sentinel strings `'null'` / `'none'` / `''`
(case-insensitive), or any other non-numeric string. -/
inductive ConfigVal where
  | num (q : ℚ)
  | pyNone
  | nullStr
  | otherStr
deriving DecidableEq

/-- A Python dict of configuration entries, as an association list. -/
abbrev Config := List (String × ConfigVal)

def clookup : Config → String → Option ConfigVal
  | [], _ => none
  | (k, v) :: rest, key => if k = key then some v else clookup rest key

/-- Python dict assignment `cfg[key] = v`. -/
def config_set : Config → String → ConfigVal → Config
  | [], key, v => [(key, v)]
  | (k, w) :: rest, key, v =>
    if k = key then (k, v) :: rest else (k, w) :: config_set rest key v

/-- The source's explicitly-disabled test: `value is None` or a
null-sentinel string. -/
def null_like : ConfigVal → Bool
  | .pyNone => true
  | .nullStr => true
  | _ => false

/-- Embedding of `get_param` of `_manage_position_unified`: a key present in the leg
config with a null-like value is explicitly disabled and never falls back;
a missing key falls back to the strategy defaults only when allowed, with
the same null handling there; otherwise the default is returned. -/
def get_param (cfg defaults : Config) (key : String) (default : Option ConfigVal)
    (allow_strategy_fallback : Bool) : Option ConfigVal :=
  match clookup cfg key with
  | some v => if null_like v then none else some v
  | none =>
    if allow_strategy_fallback then
      match clookup defaults key with
      | some v => if null_like v then none else some v
      | none => default
    else default

/-- Embedding of `safe_float` of `_manage_position_unified`: numeric values convert,
everything else (including `None` and null-sentinel or non-numeric
strings) becomes `None`. -/
def safe_float : Option ConfigVal → Option ℚ
  | some (.num q) => some q
  | _ => none

/-! ## `SehwagStrategy._manage_position_unified`
(src/core/strategy.py lines 1324-1621) -/

/-- The slice of `LegState` read and written by the unified manager.  The
leg config is part of the state because mode 3 writes the escalated
`lock_profit_pct` back into it.  `profit_level_for_lock_increase` is
`none` while the attribute does not yet exist. -/
structure LegRiskState where
  cfg : Config
  entry_price : ℚ
  current_sl : ℚ
  last_sl_trail_level : ℚ
  first_lock_achieved : Bool
  profit_exit_target : Option ℚ
  last_trail_level : ℚ
  profit_level_for_lock_increase : Option ℚ
  sl_order_id : Option ℕ
deriving DecidableEq

/-- The exit decision the unified manager can take. -/
inductive MgmtExit where
  | autoClose
  | trailExit
  | profitLock
deriving DecidableEq

/-- Section 1 of `_manage_position_unified` (lines 1390-1444): the trailing
stop.  The gate uses Python truthiness (`if sl_trail_trigger and
sl_trail_move and pnl_pct > 0`); the new stop is
`current_sl * (1 + sl_increase_pct / 100)`, compounding from the previous
stop, applied only when it raises the stop. -/
def sl_trail_section (defaults : Config) (st : LegRiskState) (pnl_pct : ℚ) :
    LegRiskState :=
  let sl_trail_trigger := safe_float (get_param st.cfg defaults "sl_trail_trigger_pct" none true)
  let sl_trail_move := safe_float (get_param st.cfg defaults "sl_trail_move_pct" none true)
  if truthyQ sl_trail_trigger && truthyQ sl_trail_move && decide (0 < pnl_pct) then
    let t := sl_trail_trigger.getD 0
    let m := sl_trail_move.getD 0
    let profit_increase := pnl_pct - st.last_sl_trail_level
    if profit_increase ≥ t then
      let intervals := pyInt (profit_increase / t)
      let sl_increase_pct := m * (intervals : ℚ)
      let new_sl_price := st.current_sl * (1 + sl_increase_pct / 100)
      if new_sl_price > st.current_sl then
        { st with current_sl := new_sl_price, last_sl_trail_level := pnl_pct }
      else st
    else st
  else st

/-- Mode 2 lazy re-initialisation (lines 1471-1475): while the exit target
is unset, the trail level and the lock flag are re-zeroed on every call. -/
def mode2_init (st : LegRiskState) : LegRiskState :=
  if st.profit_exit_target.isNone then
    { st with last_trail_level := 0, first_lock_achieved := false }
  else st

/-- Mode 2 stage 1 (lines 1477-1525): arm the lock once profit reaches the
lock trigger, freeze the exit target at `first_lock_pct`, and (only when a
broker stop-order id exists) move the local stop to the entry-anchored
lock price. -/
def mode2_stage1 (st : LegRiskState) (pnl_pct fl : ℚ)
    (lock_trigger_pct : Option ℚ) : LegRiskState :=
  if !st.first_lock_achieved &&
      (match lock_trigger_pct with
       | some lt => decide (pnl_pct ≥ lt)
       | none => false) then
    let stl := { st with
      first_lock_achieved := true, profit_exit_target := some fl,
      last_trail_level := pnl_pct }
    if stl.sl_order_id.isSome then
      { stl with current_sl := stl.entry_price * (1 + fl / 100) }
    else stl
  else st

/-- Mode 2 stage 3 (lines 1535-1597): raise the exit target by
`trail_move_pct` per whole `trail_trigger_pct` interval gained, capped at
the current profit minus 0.5, mirroring the broker stop when present. -/
def mode2_stage3 (st : LegRiskState) (pnl_pct tt tm : ℚ) : LegRiskState :=
  if st.first_lock_achieved && st.profit_exit_target.isSome then
    let tg := st.profit_exit_target.getD 0
    let profit_increase := pnl_pct - st.last_trail_level
    if profit_increase ≥ tt then
      let intervals := pyInt (profit_increase / tt)
      let new_target0 := tg + tm * (intervals : ℚ)
      let max_exit_target := pnl_pct - 1 / 2
      let new_target :=
        if new_target0 > max_exit_target then max_exit_target else new_target0
      let stn := { st with
        profit_exit_target := some new_target, last_trail_level := pnl_pct }
      if stn.sl_order_id.isSome then
        { stn with current_sl := stn.entry_price * (1 + new_target / 100) }
      else stn
    else st
  else st

/-- Mode 2 of `_manage_position_unified` ("lock once then trail", lines
1463-1597): re-initialise, arm the lock (stage 1), exit once profit falls
to the target (stage 2), else trail the target (stage 3). -/
def mode2_lock_then_trail (defaults : Config) (st : LegRiskState)
    (pnl_pct fl tt tm : ℚ) : LegRiskState × Option MgmtExit :=
  let lock_trigger_pct := safe_float (get_param st.cfg defaults "lock_trigger_pct" (some (.num fl)) true)
  let st2 := mode2_stage1 (mode2_init st) pnl_pct fl lock_trigger_pct
  if st2.first_lock_achieved &&
      (match st2.profit_exit_target with
       | some tg => decide (pnl_pct ≤ tg)
       | none => false) then
    (st2, some .trailExit)
  else (mode2_stage3 st2 pnl_pct tt tm, none)

/-- Mode 3 of `_manage_position_unified` ("progressive escalating lock",
lines 1599-1615): the escalation threshold attribute is created lazily;
crossing it raises the target by `profit_lock_step` and writes the new
`lock_profit_pct` back into the leg config; the exit fires once profit
reaches the (possibly escalated) target. -/
def mode3_progressive (st : LegRiskState) (pnl_pct lp0 stp th : ℚ) :
    LegRiskState × Option MgmtExit :=
  let p1 :=
    match st.profit_level_for_lock_increase with
    | none =>
      (({ st with profit_level_for_lock_increase := some (lp0 + th) } : LegRiskState),
       lp0 + th)
    | some e => (st, e)
  let p2 :=
    if pnl_pct ≥ p1.2 then
      (({ p1.1 with
          profit_level_for_lock_increase := some (p1.2 + th),
          cfg := config_set p1.1.cfg "lock_profit_pct" (.num (lp0 + stp)) } : LegRiskState),
       lp0 + stp)
    else (p1.1, lp0)
  if pnl_pct ≥ p2.2 then (p2.1, some .profitLock) else (p2.1, none)

/-- Mode selection of `_manage_position_unified` (lines 1453-1621): the
mode parameters are resolved without strategy fallback; mode 2 wins when
its three parameters are all non-`None`, else mode 3 when its three are,
else mode 1 (simple lock) when `lock_profit_pct` is. -/
def manage_modes (defaults : Config) (st : LegRiskState) (pnl_pct : ℚ) :
    LegRiskState × Option MgmtExit :=
  let first_lock_pct := safe_float (get_param st.cfg defaults "first_lock_pct" none false)
  let trail_trigger_pct := safe_float (get_param st.cfg defaults "trail_trigger_pct" none false)
  let trail_move_pct := safe_float (get_param st.cfg defaults "trail_move_pct" none false)
  let lock_profit_pct := safe_float (get_param st.cfg defaults "lock_profit_pct" none false)
  let profit_lock_step := safe_float (get_param st.cfg defaults "profit_lock_step" none false)
  let profit_step_threshold := safe_float (get_param st.cfg defaults "profit_step_threshold" none false)
  match first_lock_pct, trail_trigger_pct, trail_move_pct with
  | some fl, some tt, some tm => mode2_lock_then_trail defaults st pnl_pct fl tt tm
  | _, _, _ =>
    match profit_lock_step, profit_step_threshold, lock_profit_pct with
    | some stp, some th, some lp => mode3_progressive st pnl_pct lp stp th
    | _, _, _ =>
      match lock_profit_pct with
      | some lp => if pnl_pct ≥ lp then (st, some .profitLock) else (st, none)
      | none => (st, none)

/-- Embedding of `_manage_position_unified`: trailing-stop section, then the auto-close
check (highest priority, never inherited from strategy defaults), then the
profit-management modes.  The current price only flows into the exit call,
not into the decisions, and is therefore dropped here. -/
def manage_position_unified (defaults : Config) (st : LegRiskState)
    (pnl_pct : ℚ) : LegRiskState × Option MgmtExit :=
  let st1 := sl_trail_section defaults st pnl_pct
  let auto_close_pct := safe_float (get_param st1.cfg defaults "auto_close_profit_pct" none false)
  if (match auto_close_pct with
      | some a => decide (pnl_pct ≥ a)
      | none => false) then
    (st1, some .autoClose)
  else manage_modes defaults st1 pnl_pct

/-- Embedding of the `PositionManager.manage_position` trailing-stop block
(src/core/position_manager.py lines 58-65): keeps the stop `sl_trail_pct`
percent below the current market price, raising it only. -/
def pm_trail_sl (sl_trail_pct : Option ℚ) (current_sl current_price pnl_pct : ℚ) : ℚ :=
  if truthyQ sl_trail_pct && decide (0 < pnl_pct) then
    let new_sl := current_price * (1 - sl_trail_pct.getD 0 / 100)
    if new_sl > current_sl then new_sl else current_sl
  else current_sl

/-! ## Concrete scenario data -/

/-- The leg configuration of the C3 scenario: lock trigger 4%, first lock
2%, trail trigger 2%, trail move 1%. -/
def lockTrailCfg : Config :=
  [("lock_trigger_pct", .num 4), ("first_lock_pct", .num 2),
   ("trail_trigger_pct", .num 2), ("trail_move_pct", .num 1)]

/-- Freshly entered leg state for the C3 scenario: entry 100, initial stop
93, no broker stop order. -/
def lockTrailStart : LegRiskState :=
  { cfg := lockTrailCfg, entry_price := 100, current_sl := 93,
    last_sl_trail_level := 0, first_lock_achieved := false,
    profit_exit_target := none, last_trail_level := 0,
    profit_level_for_lock_increase := none, sl_order_id := none }

def lockTrailS2 : LegRiskState :=
  { lockTrailStart with
    first_lock_achieved := true, profit_exit_target := some 2,
    last_trail_level := 4 }

def lockTrailS3 : LegRiskState :=
  { lockTrailStart with
    first_lock_achieved := true, profit_exit_target := some 3,
    last_trail_level := 6 }

def lockTrailS4 : LegRiskState :=
  { lockTrailStart with
    first_lock_achieved := true, profit_exit_target := some 4,
    last_trail_level := 8 }

/-- Leg configuration with only the trailing stop armed (1% trigger, 1%
move), used against claim C5. -/
def slTrailCfg : Config :=
  [("sl_trail_trigger_pct", .num 1), ("sl_trail_move_pct", .num 1)]

/-- Leg state for the C5 counterexample: entry 100, stop 93 (7% initial). -/
def slTrailSt : LegRiskState :=
  { cfg := slTrailCfg, entry_price := 100, current_sl := 93,
    last_sl_trail_level := 0, first_lock_achieved := false,
    profit_exit_target := none, last_trail_level := 0,
    profit_level_for_lock_increase := none, sl_order_id := none }

/-! ## Theorems -/

/-- A leg whose exit has already run is a fixed point of the exit call. -/
theorem run_exit_calls_exited (persistence : Bool) (s : ExitLegState)
    (calls : List (ℚ × List Char)) (h : s.exiting = true ∨ s.is_active = false) :
    run_exit_calls persistence s calls = (s, ⟨0, 0, 0⟩) := by
  induction calls with
  | nil => rfl
  | cons c cs ih =>
    have hskip : exit_leg_position persistence s c.1 c.2 = (s, ⟨0, 0, 0⟩) := by
      unfold exit_leg_position
      rcases h with h | h <;> simp [h]
    simp [run_exit_calls, hskip, ih, ExitEffects.add]

/-- Claim C10: `LegState.calculate_pnl` is total and never divides by zero:
a missing entry price or a failed float conversion yields `(0, 0)`, and a
zero entry price yields a zero `pnl_pct` instead of an error. -/
theorem calculate_pnl_total (quantity : Option ℤ) (cp : PyNum) (e : ℚ) :
    calculate_pnl none quantity cp = (0, 0) ∧
    calculate_pnl (some .fail) quantity cp = (0, 0) ∧
    calculate_pnl (some (.num e)) quantity .fail = (0, 0) ∧
    (calculate_pnl (some (.num 0)) quantity cp).2 = 0 := by
  refine ⟨rfl, ?_, rfl, ?_⟩
  · cases cp <;> rfl
  · cases cp <;> simp [calculate_pnl]

/-- Claim C2 counterexample: with entry 100 and a configured stop
percentage of 100, the stop price is exactly 0; a 0.0 price is falsy in
Python, so feeding that exact stop price back as the current price makes
`_handle_price_update` return early (line 1199) and no stop-breach
decision fires, where the claim demands a breach for every entry price
`E > 0` and stop percentage `S`. -/
theorem stop_round_trip_claim_counterexample :
    initial_sl_price 100 100 = 0 ∧
    handle_price_update_action true false (initial_sl_price 100 100)
      (initial_sl_price 100 100) = .skip ∧
    PriceAction.skip ≠ PriceAction.slBreach := by
  have h0 : initial_sl_price 100 100 = 0 := by
    unfold initial_sl_price; norm_num
  refine ⟨h0, ?_, by decide⟩
  rw [h0]
  simp [handle_price_update_action]

/-- Claim C2 amended: entry sets the stop to exactly `E * (1 - S/100)`;
feeding that stop back as the current price triggers the stop-breach
decision whenever the stop price is nonzero (a 0.0 price — which occurs
exactly at `S = 100` — is falsy and discarded before any breach check);
entry 100 with a 7% stop yields a stop of exactly 93, which fires at 93
and at no higher price. -/
theorem stop_round_trip (E S : ℚ) (hE : 0 < E)
    (hS : initial_sl_price E S ≠ 0) :
    initial_sl_price E S = E * (1 - S / 100) ∧
    handle_price_update_action true false (initial_sl_price E S)
      (initial_sl_price E S) = .slBreach ∧
    initial_sl_price 100 7 = 93 ∧
    (∀ p : ℚ, 93 < p →
      handle_price_update_action true false p (initial_sl_price 100 7) = .manage) := by
  have h93 : initial_sl_price 100 7 = 93 := by
    unfold initial_sl_price; norm_num
  refine ⟨rfl, ?_, h93, ?_⟩
  · simp [handle_price_update_action, hS]
  · intro p hp
    have hp0 : p ≠ 0 := ne_of_gt (lt_trans (by norm_num) hp)
    rw [h93]
    simp [handle_price_update_action, hp0, not_le.mpr hp]

/-- Witness for `stop_round_trip` at `E = 100`, `S = 7`, `p = 94`. -/
theorem stop_round_trip_witness :
    handle_price_update_action true false (initial_sl_price 100 7)
      (initial_sl_price 100 7) = .slBreach ∧
    handle_price_update_action true false 94 (initial_sl_price 100 7) = .manage := by
  have h := stop_round_trip 100 7 (by norm_num) (by norm_num [initial_sl_price])
  exact ⟨h.2.1, h.2.2.2 94 (by norm_num)⟩

/-- Claim C9 (code bug): on a Saturday at 12:00, with the leg's exit time
still in the future, the WAITING phase does not abort, because
`is_market_open` returns `True` unconditionally; its own (unreachable)
market-hours logic reports the market closed. -/
theorem market_closed_abort_never_fires :
    is_market_open ⟨5, ⟨12, 0, 0⟩⟩ = true ∧
    is_market_open_dead_code ⟨5, ⟨12, 0, 0⟩⟩ = false ∧
    waiting_phase_aborts ⟨5, ⟨12, 0, 0⟩⟩ (some ⟨15, 15, 0⟩) 15 0 = false := by
  decide

/-- The re-initialisation `mode2_init` is the identity once the exit target is set. -/
theorem mode2_init_of_target (st : LegRiskState) (tg : ℚ)
    (htg : st.profit_exit_target = some tg) : mode2_init st = st := by
  unfold mode2_init
  simp [htg]

/-- Stage 1 `mode2_stage1` is the identity once the lock is achieved. -/
theorem mode2_stage1_of_achieved (st : LegRiskState) (pnl fl : ℚ)
    (lt : Option ℚ) (hach : st.first_lock_achieved = true) :
    mode2_stage1 st pnl fl lt = st := by
  unfold mode2_stage1
  simp [hach]

/-- The re-initialisation `mode2_init` touches neither the stop nor the stop-order id. -/
theorem mode2_init_fields (st : LegRiskState) :
    (mode2_init st).current_sl = st.current_sl ∧
    (mode2_init st).sl_order_id = st.sl_order_id := by
  unfold mode2_init
  split <;> exact ⟨rfl, rfl⟩

/-- Without a broker stop-order id, stage 1 leaves the stop alone. -/
theorem mode2_stage1_sl (st : LegRiskState) (pnl fl : ℚ) (lt : Option ℚ)
    (h : st.sl_order_id = none) :
    (mode2_stage1 st pnl fl lt).current_sl = st.current_sl ∧
    (mode2_stage1 st pnl fl lt).sl_order_id = none := by
  unfold mode2_stage1
  split
  · dsimp only
    split
    · simp_all
    · exact ⟨rfl, h⟩
  · exact ⟨rfl, h⟩

/-- Without a broker stop-order id, stage 3 leaves the stop alone. -/
theorem mode2_stage3_sl (st : LegRiskState) (pnl tt tm : ℚ)
    (h : st.sl_order_id = none) :
    (mode2_stage3 st pnl tt tm).current_sl = st.current_sl := by
  unfold mode2_stage3
  split
  · dsimp only
    split
    · split
      · simp_all
      · rfl
    · rfl
  · rfl

/-- With the lock armed and profit at or below the exit target, mode 2
exits immediately with the state unchanged. -/
theorem mode2_exit_when_fallen (defaults : Config) (st : LegRiskState)
    (pnl fl tt tm tg : ℚ) (hach : st.first_lock_achieved = true)
    (htg : st.profit_exit_target = some tg) (hle : pnl ≤ tg) :
    mode2_lock_then_trail defaults st pnl fl tt tm = (st, some .trailExit) := by
  have hinit := mode2_init_of_target st tg htg
  have hst1 : ∀ lt, mode2_stage1 st pnl fl lt = st := fun lt =>
    mode2_stage1_of_achieved st pnl fl lt hach
  unfold mode2_lock_then_trail
  simp only [hinit, hst1]
  simp [hach, htg, hle]

/-- With the lock armed and profit above the exit target, mode 2 never
exits (it may only trail the target). -/
theorem mode2_no_exit_above (defaults : Config) (st : LegRiskState)
    (pnl fl tt tm tg : ℚ) (hach : st.first_lock_achieved = true)
    (htg : st.profit_exit_target = some tg) (hgt : tg < pnl) :
    (mode2_lock_then_trail defaults st pnl fl tt tm).2 = none := by
  have hinit := mode2_init_of_target st tg htg
  have hst1 : ∀ lt, mode2_stage1 st pnl fl lt = st := fun lt =>
    mode2_stage1_of_achieved st pnl fl lt hach
  unfold mode2_lock_then_trail
  simp only [hinit, hst1]
  simp [hach, htg, not_le.mpr hgt]

/-- Without a broker stop-order id, mode 2 never touches the local stop. -/
theorem mode2_preserves_sl (defaults : Config) (st : LegRiskState)
    (pnl fl tt tm : ℚ) (h : st.sl_order_id = none) :
    ((mode2_lock_then_trail defaults st pnl fl tt tm).1).current_sl =
      st.current_sl := by
  have hi := mode2_init_fields st
  have h1 := mode2_stage1_sl (mode2_init st) pnl fl
    (safe_float (get_param st.cfg defaults "lock_trigger_pct" (some (.num fl)) true))
    (by rw [hi.2, h])
  have h3 := mode2_stage3_sl
    (mode2_stage1 (mode2_init st) pnl fl
      (safe_float (get_param st.cfg defaults "lock_trigger_pct" (some (.num fl)) true)))
    pnl tt tm h1.2
  unfold mode2_lock_then_trail
  dsimp only
  split
  · exact h1.1.trans hi.1
  · exact (h3.trans h1.1).trans hi.1

/-- Mode 3 never touches the local stop. -/
theorem mode3_preserves_sl (st : LegRiskState) (pnl lp0 stp th : ℚ) :
    ((mode3_progressive st pnl lp0 stp th).1).current_sl = st.current_sl := by
  unfold mode3_progressive
  dsimp only
  split
  · split <;> split <;> rfl
  · split <;> split <;> rfl

/-- Without a broker stop-order id, the profit-management modes never touch
the local stop. -/
theorem manage_modes_preserves_sl (defaults : Config) (st : LegRiskState)
    (pnl : ℚ) (h : st.sl_order_id = none) :
    ((manage_modes defaults st pnl).1).current_sl = st.current_sl := by
  unfold manage_modes
  dsimp only
  split
  · exact mode2_preserves_sl _ _ _ _ _ _ h
  · split
    · exact mode3_preserves_sl _ _ _ _ _
    · split
      · split <;> rfl
      · rfl

/-- The trailing-stop section does not change the stop-order id. -/
theorem sl_trail_section_keeps_order (defaults : Config) (st : LegRiskState)
    (pnl : ℚ) : (sl_trail_section defaults st pnl).sl_order_id = st.sl_order_id := by
  unfold sl_trail_section
  dsimp only
  split
  · split
    · split <;> rfl
    · rfl
  · rfl

/-- Without a broker stop-order id, the local stop produced by the whole
unified manager is the one produced by its trailing-stop section. -/
theorem manage_after_trail_sl (defaults : Config) (st : LegRiskState)
    (pnl : ℚ) (h : st.sl_order_id = none) :
    ((manage_position_unified defaults st pnl).1).current_sl =
      (sl_trail_section defaults st pnl).current_sl := by
  unfold manage_position_unified
  dsimp only
  have hsl : (sl_trail_section defaults st pnl).sl_order_id = none := by
    rw [sl_trail_section_keeps_order, h]
  split
  · rfl
  · exact manage_modes_preserves_sl _ _ _ hsl

/-- When the trailing-stop gate fires and raises the stop, the section
compounds the new stop from the previous stop. -/
theorem sl_trail_section_fires (defaults : Config) (st : LegRiskState)
    (pnl t m : ℚ)
    (h1 : safe_float (get_param st.cfg defaults "sl_trail_trigger_pct" none true) = some t)
    (h2 : safe_float (get_param st.cfg defaults "sl_trail_move_pct" none true) = some m)
    (ht : t ≠ 0) (hm : m ≠ 0) (hpnl : 0 < pnl)
    (hinc : pnl - st.last_sl_trail_level ≥ t)
    (hup : st.current_sl *
        (1 + (m * (pyInt ((pnl - st.last_sl_trail_level) / t) : ℚ)) / 100) >
      st.current_sl) :
    sl_trail_section defaults st pnl =
      { st with
        current_sl := st.current_sl *
          (1 + (m * (pyInt ((pnl - st.last_sl_trail_level) / t) : ℚ)) / 100),
        last_sl_trail_level := pnl } := by
  unfold sl_trail_section
  rw [h1, h2]
  simp [truthyQ, ht, hm, hpnl, hinc, hup]

/-- Claim C1: exit is idempotent.  A leg whose exit has run (inactive or
`_exiting` set) is left untouched by further exit calls, with no further
exit order, no change to the exit fields and no further P&L record; a live
leg transitions to inactive once, and a whole sequence of exit calls
starting from a live leg places exactly one exit order and writes exactly
one P&L record.  `PositionManager.exit_position` likewise ignores inactive
legs. -/
theorem exit_idempotent (s : ExitLegState) (p q : ℚ) (r : List Char)
    (calls : List (ℚ × List Char)) (leg : PmLeg) (b : Bool)
    (hs : s.is_active = true) (hx : s.exiting = false)
    (hleg : leg.is_active = false) :
    (∀ t : ExitLegState, t.exiting = true ∨ t.is_active = false →
      exit_leg_position true t p r = (t, ⟨0, 0, 0⟩)) ∧
    (exit_leg_position true s p r).1.is_active = false ∧
    (exit_leg_position true s p r).1.exiting = true ∧
    (exit_leg_position true s p r).1.exit_price = some p ∧
    (exit_leg_position true s p r).1.exit_reason = some r ∧
    run_exit_calls true (exit_leg_position true s p r).1 calls =
      ((exit_leg_position true s p r).1, ⟨0, 0, 0⟩) ∧
    (run_exit_calls true s ((p, r) :: calls)).2 =
      ⟨1, 1, if s.sl_order_id.isSome then 1 else 0⟩ ∧
    pm_exit_position b leg q = (leg, 0) := by
  have hstep : exit_leg_position true s p r =
      ({ s with
          exiting := true, is_active := false,
          sl_order_id := none, profit_target_order_id := none,
          exit_price := some p, exit_reason := some r },
       ⟨1, 1, if s.sl_order_id.isSome then 1 else 0⟩) := by
    unfold exit_leg_position
    simp [hs, hx]
  have hfix : ∀ t : ExitLegState, t.exiting = true ∨ t.is_active = false →
      exit_leg_position true t p r = (t, ⟨0, 0, 0⟩) := by
    intro t ht
    unfold exit_leg_position
    rcases ht with h | h <;> simp [h]
  have hafter : run_exit_calls true (exit_leg_position true s p r).1 calls =
      ((exit_leg_position true s p r).1, ⟨0, 0, 0⟩) := by
    apply run_exit_calls_exited
    rw [hstep]
    exact Or.inl rfl
  refine ⟨hfix, by rw [hstep], by rw [hstep], by rw [hstep], by rw [hstep],
    hafter, ?_, by simp [pm_exit_position, hleg]⟩
  rw [hstep] at hafter
  show (let r1 := exit_leg_position true s p r
        let r2 := run_exit_calls true r1.1 calls
        (r2.1, r1.2.add r2.2)).2 = _
  simp [hstep, hafter, ExitEffects.add]

/-- Witness for `exit_idempotent` on a concrete live leg with a stop order
on the broker and one duplicate exit call. -/
theorem exit_idempotent_witness :
    (run_exit_calls true ⟨true, false, some 5, none, none, none⟩
      [(93, ("SL_BREACH").toList), (93, ("SL_BREACH").toList)]).2 =
      ⟨1, 1, 1⟩ ∧
    (exit_leg_position true ⟨true, false, some 5, none, none, none⟩ 93
      (("SL_BREACH").toList)).1.is_active = false := by
  have h := exit_idempotent ⟨true, false, some 5, none, none, none⟩ 93 90
    (("SL_BREACH").toList) [(93, ("SL_BREACH").toList)] ⟨false, none, false⟩
    true rfl rfl rfl
  exact ⟨h.2.2.2.2.2.2.1, h.2.1⟩

/-- Claim C4 counterexample: with threshold 3% and reset-drop 5% from
reference 100, the observed path 104, 90 rises to the peak 104 — exceeding
the original target 103 — and then falls 13% from that peak, yet the
confirmation returns `True` at 104 with no reset and the reference still
100, where the claim demands a reset to the retraced price and no
threshold confirmation. -/
theorem wait_trade_reset_claim_counterexample :
    wt_run 3 true (some 5) (wt_start 100) [104, 90] = (true, ⟨100, 104, 0⟩) ∧
    (104 : ℚ) ≥ wt_target_price 3 100 ∧
    ((104 : ℚ) - 90) / 104 * 100 ≥ 5 := by
  refine ⟨?_, by norm_num [wt_target_price], by norm_num⟩
  norm_num [wt_run, wt_observe, wt_start, wt_target_price]

/-- Claim C4 amended: provided every price observed before the drop stays
below the current target, a drop of at least `reset_drop_pct` percent from
the running peak resets reference, target and peak to the retraced price
and counts a reset; afterwards a price exceeding the original target but
not the rebased target does not confirm, and the rebased target itself
confirms.  (If an observed price reaches the target before the drop, the
confirmation instead succeeds immediately — see the counterexample.) -/
theorem wait_trade_reset_behavior (T d : ℚ) (s : WtState) (p : ℚ)
    (hlt : p < wt_target_price T s.reference_price)
    (hd : d ≠ 0)
    (hdrop : ((if p > s.highest_since_reference then p
        else s.highest_since_reference) - p) /
      (if p > s.highest_since_reference then p
        else s.highest_since_reference) * 100 ≥ d) :
    wt_observe T true (some d) s p = .pending ⟨p, p, s.reset_count + 1⟩ ∧
    wt_run 10 true (some 3) (wt_start 100) [108, 104, 112] =
      (false, ⟨104, 112, 1⟩) ∧
    wt_run 10 true (some 3) (wt_start 100) [108, 104, 112, 115] =
      (true, ⟨104, 115, 1⟩) ∧
    (112 : ℚ) ≥ wt_target_price 10 100 ∧
    (112 : ℚ) < wt_target_price 10 104 := by
  refine ⟨?_, ?_, ?_, by norm_num [wt_target_price], by norm_num [wt_target_price]⟩
  · unfold wt_observe
    rw [if_neg (not_le.mpr hlt)]
    simp [hd, hdrop]
  · norm_num [wt_run, wt_observe, wt_start, wt_target_price]
  · norm_num [wt_run, wt_observe, wt_start, wt_target_price]

/-- Witness for `wait_trade_reset_behavior`: reference 100, peak 108,
retrace to 104 with a 3% reset-drop. -/
theorem wait_trade_reset_behavior_witness :
    wt_observe 10 true (some 3) ⟨100, 108, 0⟩ 104 = .pending ⟨104, 104, 1⟩ := by
  have h := wait_trade_reset_behavior 10 3 ⟨100, 108, 0⟩ 104
    (by norm_num [wt_target_price]) (by norm_num) (by norm_num)
  exact h.1

/-- Claim C6: in live mode, a successful position-book query without a
nonzero-quantity entry for the symbol makes the exit-side `place_order`
return no order id, while a failed query (non-dict reply, non-success
status, or exception) fails open and the exit order is still placed. -/
theorem exit_order_position_guard (symbol ex msg : List Char)
    (entries : List PosEntry) (oid : ℕ)
    (habsent : ∀ p ∈ entries, ¬(p.symbol = some symbol ∧ p.quantity ≠ 0)) :
    verify_position_exists false true symbol (.success entries) = false ∧
    place_order false true ex ex symbol (.success entries) (.ok oid) = none ∧
    verify_position_exists false true symbol .nonDict = true ∧
    verify_position_exists false true symbol (.errorStatus msg) = true ∧
    verify_position_exists false true symbol .exn = true ∧
    place_order false true ex ex symbol .nonDict (.ok oid) = some oid ∧
    place_order false true ex ex symbol (.errorStatus msg) (.ok oid) = some oid ∧
    place_order false true ex ex symbol .exn (.ok oid) = some oid := by
  have hany : entries.any
      (fun p => p.symbol == some symbol && p.quantity != 0) = false := by
    rw [List.any_eq_false]
    intro p hp
    simp only [Bool.and_eq_true, beq_iff_eq, bne_iff_ne]
    exact habsent p hp
  have hver : verify_position_exists false true symbol (.success entries) = false := by
    simp [verify_position_exists, hany]
  refine ⟨hver, by simp [place_order, hver], by simp [verify_position_exists],
    by simp [verify_position_exists], by simp [verify_position_exists], ?_, ?_, ?_⟩ <;>
    simp [place_order, verify_position_exists]

/-- Witness for `exit_order_position_guard`: position book holds only a
different symbol. -/
theorem exit_order_position_guard_witness :
    verify_position_exists false true ("NIFTY".toList)
      (.success [⟨some ("SENSEX".toList), 75⟩]) = false ∧
    place_order false true ("SELL".toList) ("SELL".toList) ("NIFTY".toList)
      (.success [⟨some ("SENSEX".toList), 75⟩]) (.ok 42) = none ∧
    place_order false true ("SELL".toList) ("SELL".toList) ("NIFTY".toList)
      .nonDict (.ok 42) = some 42 := by
  have h := exit_order_position_guard ("NIFTY".toList) ("SELL".toList)
    ("err".toList) [⟨some ("SENSEX".toList), 75⟩] 42 (by decide)
  exact ⟨h.1, h.2.1, h.2.2.2.2.2.1⟩

/-- Claim C7 counterexample: a modify of the stop order answered with an
"not a pending order" message returns `False` — the same Boolean as the
error path — not a successful outcome as the claim states for both
operations. -/
theorem modify_already_executed_reports_failure :
    (modify_sl_order true true (some 1) false
      (.failure ("Order is not a pending order").toList)).1 = false ∧
    (cancel_sl_order true true (some 1) false
      (.failure ("Order is not a pending order").toList)).1 = true := by
  decide

/-- Claim C7 amended: for every response message containing "not a pending
order" or "already executed" (case-insensitively), `cancel_sl_order`
reports success and both operations classify the reply as informational
already-filled rather than logging an error, but `modify_sl_order` still
returns `False`. -/
theorem sl_order_already_executed_semantics (msg : List Char) (oid : ℕ)
    (h : already_filled_msg msg = true) :
    cancel_sl_order true true (some oid) false (.failure msg) =
      (true, .alreadyFilledLog) ∧
    modify_sl_order true true (some oid) false (.failure msg) =
      (false, .alreadyFilledLog) := by
  constructor <;> simp [cancel_sl_order, modify_sl_order, h]

/-- Witness for `sl_order_already_executed_semantics` on a mixed-case
broker message. -/
theorem sl_order_already_executed_semantics_witness :
    already_filled_msg ("Order Already Executed").toList = true ∧
    cancel_sl_order true true (some 7) false
      (.failure ("Order Already Executed").toList) = (true, .alreadyFilledLog) ∧
    modify_sl_order true true (some 7) false
      (.failure ("Order Already Executed").toList) = (false, .alreadyFilledLog) := by
  have h := sl_order_already_executed_semantics
    ("Order Already Executed").toList 7 (by decide)
  exact ⟨by decide, h.1, h.2⟩

/-- Claim C8: three transient error replies exhaust the 3 attempts with the
linear backoff 0.5 s then 1.0 s and return unavailable without raising; a
non-transient error reply returns unavailable after a single attempt with
no retry. -/
theorem quote_fetch_degrades (m1 m2 m3 m : List Char)
    (rest rest2 : List QuoteAttempt)
    (h1 : transient_error_msg m1 = true) (h2 : transient_error_msg m2 = true)
    (h3 : transient_error_msg m3 = true) (hn : transient_error_msg m = false) :
    get_quote (.errResp m1 :: .errResp m2 :: .errResp m3 :: rest) =
      ⟨none, [1 / 2, 1], 3⟩ ∧
    get_quote (.errResp m :: rest2) = ⟨none, [], 1⟩ := by
  constructor
  · simp only [get_quote, get_quote_from, h1, h2, h3, if_true]
    norm_num
  · simp [get_quote, get_quote_from, hn]

/-- Witness for `quote_fetch_degrades`: the transient message "Read timeout"
and the non-transient message "Invalid API key". -/
theorem quote_fetch_degrades_witness :
    get_quote [.errResp ("Read timeout").toList,
      .errResp ("Read timeout").toList, .errResp ("Read timeout").toList] =
      ⟨none, [1 / 2, 1], 3⟩ ∧
    get_quote [.errResp ("Invalid API key").toList] = ⟨none, [], 1⟩ := by
  have h := quote_fetch_degrades ("Read timeout").toList ("Read timeout").toList
    ("Read timeout").toList ("Invalid API key").toList [] []
    (by decide) (by decide) (by decide) (by decide)
  exact ⟨h.1, h.2⟩

/-- Claim C3: in lock-then-trail mode with lock trigger 4%, first lock 2%,
trail trigger 2% and trail move 1%, the profit path 0 → 4 → 6 → 8 yields
exit targets none → 2 → 3 → 4 (each below the current-profit-minus-0.5
cap) with no exit; afterwards the position exits exactly when profit falls
to or below the last target 4. -/
theorem lock_then_trail_scenario (p : ℚ) (hp : p ≤ 4) :
    manage_position_unified [] lockTrailStart 0 = (lockTrailStart, none) ∧
    manage_position_unified [] lockTrailStart 4 = (lockTrailS2, none) ∧
    manage_position_unified [] lockTrailS2 6 = (lockTrailS3, none) ∧
    manage_position_unified [] lockTrailS3 8 = (lockTrailS4, none) ∧
    ((3 : ℚ) ≤ 6 - 1 / 2 ∧ (4 : ℚ) ≤ 8 - 1 / 2) ∧
    manage_position_unified [] lockTrailS4 p = (lockTrailS4, some .trailExit) ∧
    (∀ q : ℚ, 4 < q → (manage_position_unified [] lockTrailS4 q).2 = none) := by
  have hs4 : manage_position_unified [] lockTrailStart 4 = (lockTrailS2, none) := by
    have hi : mode2_init lockTrailStart = lockTrailStart := by decide
    have h1 : mode2_stage1 lockTrailStart 4 2
        (safe_float (get_param lockTrailStart.cfg [] "lock_trigger_pct"
          (some (.num 2)) true)) = lockTrailS2 := by decide
    show mode2_lock_then_trail [] lockTrailStart 4 2 2 1 = (lockTrailS2, none)
    unfold mode2_lock_then_trail
    simp only [hi, h1]
    norm_num [lockTrailS2, lockTrailStart, mode2_stage3, pyInt]
  have hs6 : manage_position_unified [] lockTrailS2 6 = (lockTrailS3, none) := by
    have hi : mode2_init lockTrailS2 = lockTrailS2 := by decide
    have h1 : mode2_stage1 lockTrailS2 6 2
        (safe_float (get_param lockTrailS2.cfg [] "lock_trigger_pct"
          (some (.num 2)) true)) = lockTrailS2 := by decide
    show mode2_lock_then_trail [] lockTrailS2 6 2 2 1 = (lockTrailS3, none)
    unfold mode2_lock_then_trail
    simp only [hi, h1]
    norm_num [lockTrailS2, lockTrailS3, lockTrailStart, mode2_stage3, pyInt]
  have hs8 : manage_position_unified [] lockTrailS3 8 = (lockTrailS4, none) := by
    have hi : mode2_init lockTrailS3 = lockTrailS3 := by decide
    have h1 : mode2_stage1 lockTrailS3 8 2
        (safe_float (get_param lockTrailS3.cfg [] "lock_trigger_pct"
          (some (.num 2)) true)) = lockTrailS3 := by decide
    show mode2_lock_then_trail [] lockTrailS3 8 2 2 1 = (lockTrailS4, none)
    unfold mode2_lock_then_trail
    simp only [hi, h1]
    norm_num [lockTrailS3, lockTrailS4, lockTrailStart, mode2_stage3, pyInt]
  refine ⟨by decide, hs4, hs6, hs8, by norm_num, ?_, ?_⟩
  · show mode2_lock_then_trail [] lockTrailS4 p 2 2 1 = (lockTrailS4, some .trailExit)
    exact mode2_exit_when_fallen [] lockTrailS4 p 2 2 1 4 rfl rfl hp
  · intro q hq
    show (mode2_lock_then_trail [] lockTrailS4 q 2 2 1).2 = none
    exact mode2_no_exit_above [] lockTrailS4 q 2 2 1 4 rfl rfl hq

/-- Witness for `lock_then_trail_scenario` at profit 4 (exit) and 5 (no
exit). -/
theorem lock_then_trail_scenario_witness :
    manage_position_unified [] lockTrailS4 4 = (lockTrailS4, some .trailExit) ∧
    (manage_position_unified [] lockTrailS4 5).2 = none := by
  have h := lock_then_trail_scenario 4 (by norm_num)
  exact ⟨h.2.2.2.2.2.1, h.2.2.2.2.2.2 5 (by norm_num)⟩

/-- Claim C5 counterexample: a trailing-stop update from entry 100, stop 93
(7% initial) with a 1% move produces the stop `93 * (1 + 1/100) = 93.93`,
compounded from the previous stop, not the entry-anchored
`100 * (1 - 6/100) = 94`; and `PositionManager`'s trailing stop anchors to
the current market price (`110 * (1 - 5/100) = 104.5`), not to the entry
100. -/
theorem trailing_stop_not_entry_anchored :
    ((manage_position_unified [] slTrailSt 1).1).current_sl = 9393 / 100 ∧
    (9393 / 100 : ℚ) = 93 * (1 + 1 / 100) ∧
    slTrailSt.entry_price = 100 ∧ slTrailSt.current_sl = 93 ∧
    (9393 / 100 : ℚ) ≠ 100 * (1 - 6 / 100) ∧
    pm_trail_sl (some 5) 95 110 10 = 110 * (1 - 5 / 100) ∧
    (110 : ℚ) * (1 - 5 / 100) ≠ 100 * (1 - 5 / 100) := by
  have hfires := sl_trail_section_fires [] slTrailSt 1 1 1 rfl rfl
    (by norm_num) (by norm_num) (by norm_num) (by norm_num [slTrailSt])
    (by norm_num [slTrailSt, pyInt])
  refine ⟨?_, by norm_num, rfl, rfl, by norm_num, ?_, by norm_num⟩
  · rw [manage_after_trail_sl [] slTrailSt 1 rfl, hfires]
    norm_num [slTrailSt, pyInt]
  · norm_num [pm_trail_sl, truthyQ]

/-- Claim C5 amended: profit percentages are `(price - entry)/entry * 100`
and the initial stop is entry-anchored, but the trailing-stop update of
the unified manager compounds from the previous stop
(`current_sl * (1 + move·intervals/100)`), and `PositionManager`'s
trailing stop anchors to the current market price
(`price * (1 - trail/100)`), not to the entry. -/
theorem risk_price_anchoring (defaults : Config) (st : LegRiskState)
    (pnl t m e p sl price pnl2 tp : ℚ) (qty : Option ℤ)
    (h1 : safe_float (get_param st.cfg defaults "sl_trail_trigger_pct" none true) = some t)
    (h2 : safe_float (get_param st.cfg defaults "sl_trail_move_pct" none true) = some m)
    (ht : t ≠ 0) (hm : m ≠ 0) (hpnl : 0 < pnl)
    (hinc : pnl - st.last_sl_trail_level ≥ t)
    (hup : st.current_sl *
        (1 + (m * (pyInt ((pnl - st.last_sl_trail_level) / t) : ℚ)) / 100) >
      st.current_sl)
    (hsl : st.sl_order_id = none)
    (he : e ≠ 0) (htp : tp ≠ 0) (hp2 : 0 < pnl2)
    (hup2 : price * (1 - tp / 100) > sl) :
    initial_sl_price e p = e * (1 - p / 100) ∧
    (calculate_pnl (some (.num e)) qty (.num p)).2 = (p - e) / e * 100 ∧
    ((manage_position_unified defaults st pnl).1).current_sl =
      st.current_sl *
        (1 + (m * (pyInt ((pnl - st.last_sl_trail_level) / t) : ℚ)) / 100) ∧
    pm_trail_sl (some tp) sl price pnl2 = price * (1 - tp / 100) := by
  refine ⟨rfl, by simp [calculate_pnl, he], ?_, ?_⟩
  · rw [manage_after_trail_sl defaults st pnl hsl,
      sl_trail_section_fires defaults st pnl t m h1 h2 ht hm hpnl hinc hup]
  · simp [pm_trail_sl, truthyQ, htp, hp2, hup2]

/-- Witness for `risk_price_anchoring` on the concrete trailing-stop
state (entry 100, stop 93) and the concrete price-anchored trail. -/
theorem risk_price_anchoring_witness :
    ((manage_position_unified [] slTrailSt 1).1).current_sl =
      slTrailSt.current_sl *
        (1 + ((1 : ℚ) * (pyInt ((1 - slTrailSt.last_sl_trail_level) / 1) : ℚ)) / 100) ∧
    (calculate_pnl (some (.num 100)) (some 75) (.num 107)).2 =
      (107 - 100) / 100 * 100 ∧
    pm_trail_sl (some 5) 95 110 10 = 110 * (1 - 5 / 100) := by
  have h := risk_price_anchoring [] slTrailSt 1 1 1 100 107 95 110 10 5 (some 75)
    rfl rfl (by norm_num) (by norm_num) (by norm_num)
    (by norm_num [slTrailSt]) (by norm_num [slTrailSt, pyInt]) rfl
    (by norm_num) (by norm_num) (by norm_num) (by norm_num)
  exact ⟨h.2.2.1, h.2.1, h.2.2.2⟩

end Sehwag
